import Mathlib

/-!
Verification of the Gotenberg converter module
(powerrag/app/gotenberg_converter.py).

The module issues one multipart HTTP POST per call.  We embed each
function as a pure Lean function from its arguments and an explicit
`World` (the configuration lookup result, the outcome of opening the
input file, and the outcome of the HTTP request) to a result
(`Except PyErr (Bytes × String)`, mirroring "return a pair or raise")
together with a `Trace` recording the observable side effects: the
progress-callback invocations, the outbound request (if one was
issued), and the number of file-handle open and close operations.
-/

namespace PowerRag

/-- Byte strings (Python `bytes`) are modelled as lists of naturals. -/
abbrev Bytes := List Nat

/-- An HTTP response as seen by the client: status code, raw body bytes
(`response.content`) and decoded body text (`response.text`). -/
structure Response where
  status_code : Nat
  content : Bytes
  text : String
deriving DecidableEq

/-- Outcome of `requests.post`: either a response arrived, or a
transport-level `requests.exceptions.RequestException` was raised,
carrying its message. -/
inductive HttpOutcome where
  | resp (r : Response)
  | requestException (msg : String)
deriving DecidableEq

/-- The external world one invocation interacts with:
`gotenbergConfig` is the result of `get_base_config("gotenberg", {})`
(`none` models an absent or falsy section), `fileOpen` is the outcome
of `open(filename, "rb")` (`Except.error` carries the `OSError`
message), and `http` is the outcome of the HTTP request. -/
structure World where
  gotenbergConfig : Option (List (String × String))
  fileOpen : Except String Bytes
  http : HttpOutcome

/-- A raised Python exception: its class name and its message.  Every
exception the module lets escape is a plain `Exception`. -/
structure PyErr where
  cls : String
  msg : String
deriving DecidableEq

/-- One invocation of the progress callback. -/
structure CallbackCall where
  progress : Rat
  message : String
deriving DecidableEq

/-- The outbound multipart request: target URL, the filename field of
the uploaded part, the uploaded bytes, the headers, and the timeout. -/
structure RequestInfo where
  url : String
  partName : String
  partContent : Bytes
  headers : List (String × String)
  timeout : Nat
deriving DecidableEq

/-- Observable side effects of one invocation. -/
structure Trace where
  callbacks : List CallbackCall
  request : Option RequestInfo
  opens : Nat
  closes : Nat
deriving DecidableEq

/-- Python truthiness of `Optional[bytes]`: `None` and `b""` are falsy. -/
def bytesTruthy : Option Bytes → Bool
  | none => false
  | some b => !b.isEmpty

/-- Python truthiness of `Optional[str]`: `None` and `""` are falsy. -/
def strTruthy : Option String → Bool
  | none => false
  | some s => !s.isEmpty

/-- Python `str.rfind` restricted to a single character: index of the
last occurrence, `-1` when absent. -/
def rfind (cs : List Char) (c : Char) : Int :=
  match cs.reverse.findIdx? (fun d => d == c) with
  | none => -1
  | some i => (cs.length : Int) - 1 - i

/-- `os.path.basename` for POSIX paths: everything after the last slash. -/
def basename (p : String) : String :=
  String.mk (p.data.drop (rfind p.data '/' + 1).toNat)

/-- The root part of `os.path.splitext`: the path with its extension
removed.  The extension starts at the last dot after the last slash,
provided some character of the basename strictly before that dot is not
itself a dot (so leading dots do not begin an extension). -/
def splitextRoot (p : String) : String :=
  let cs := p.data
  let sepIndex := rfind cs '/'
  let dotIndex := rfind cs '.'
  if sepIndex < dotIndex then
    let start := (sepIndex + 1).toNat
    let stop := dotIndex.toNat
    if ((cs.drop start).take (stop - start)).any (fun c => c != '.') then
      String.mk (cs.take stop)
    else p
  else p

/-- Python `dict.get(k, default)` over an association list. -/
def dictGet (d : List (String × String)) (k dflt : String) : String :=
  match d.find? (fun kv => kv.1 == k) with
  | some kv => kv.2
  | none => dflt

/-- `_get_gotenberg_url`: look up sub-key "url" of the "gotenberg"
configuration section, defaulting to `http://localhost:3000` when the
section or the key is absent. -/
def get_gotenberg_url (cfg : Option (List (String × String))) : String :=
  match cfg with
  | none => "http://localhost:3000"
  | some d => dictGet d "url" "http://localhost:3000"

/-- `convert_office_to_pdf`.  The `callback` argument records whether a
progress callback was supplied; its invocations are collected in the
trace.  Control flow mirrors the source: optional start callback;
inside the `try`, build the URL, choose the multipart payload from the
in-memory bytes when `binary` is truthy and otherwise open the file;
add the trace header when `trace_id` is truthy; issue the request;
close the handle; dispatch on the status code.  An exception raised by
a non-200 branch is caught by the generic `except Exception` handler of
the same function and re-raised wrapped; a transport failure is caught
by the `except requests.exceptions.RequestException` handler.  Both
handlers close a still-open handle and report `-1` to the callback. -/
def convert_office_to_pdf (filename : String) (binary : Option Bytes)
    (callback : Bool) (trace_id : Option String) (timeout : Nat) (w : World) :
    Except PyErr (Bytes × String) × Trace :=
  let cb0 : List CallbackCall :=
    if callback then [⟨15/100, "Converting Office document to PDF..."⟩] else []
  let url := get_gotenberg_url w.gotenbergConfig ++ "/forms/libreoffice/convert"
  let afterOpen := fun (partContent : Bytes) (opens : Nat) (handleOpen : Bool) =>
    let headers :=
      if strTruthy trace_id then [("Gotenberg-Trace", trace_id.getD "")] else []
    let req : RequestInfo := ⟨url, basename filename, partContent, headers, timeout⟩
    match w.http with
    | .requestException em =>
        let closes := if handleOpen then 1 else 0
        let error_msg := "Failed to convert Office document to PDF (network error): " ++ em
        let cbs := cb0 ++ (if callback then [⟨-1, error_msg⟩] else [])
        (.error ⟨"Exception", error_msg⟩, ⟨cbs, some req, opens, closes⟩)
    | .resp response =>
        let closes := if handleOpen then 1 else 0
        if response.status_code == 200 then
          let pdf_binary := response.content
          let pdf_filename := splitextRoot filename ++ ".pdf"
          let cbs := cb0 ++
            (if callback then [⟨2/10, "Office document converted to PDF successfully"⟩] else [])
          (.ok (pdf_binary, pdf_filename), ⟨cbs, some req, opens, closes⟩)
        else
          let branch_msg :=
            if response.status_code == 400 then
              "Gotenberg conversion failed: Bad Request - " ++ response.text
            else if response.status_code == 503 then
              "Gotenberg conversion failed: Service Unavailable - " ++ response.text
            else
              "Gotenberg conversion failed with status " ++
                toString response.status_code ++ ": " ++ response.text
          let error_msg := "Failed to convert Office document to PDF: " ++ branch_msg
          let cbs := cb0 ++ (if callback then [⟨-1, error_msg⟩] else [])
          (.error ⟨"Exception", error_msg⟩, ⟨cbs, some req, opens, closes⟩)
  if bytesTruthy binary then
    afterOpen (binary.getD []) 0 false
  else
    match w.fileOpen with
    | .error e =>
        let error_msg := "Failed to convert Office document to PDF: " ++ e
        let cbs := cb0 ++ (if callback then [⟨-1, error_msg⟩] else [])
        (.error ⟨"Exception", error_msg⟩, ⟨cbs, none, 0, 0⟩)
    | .ok content => afterOpen content 1 true

/-- `convert_html_to_pdf`.  Identical control flow to
`convert_office_to_pdf` with the Chromium route, the uploaded part
always named `index.html`, and HTML-specific messages. -/
def convert_html_to_pdf (filename : String) (binary : Option Bytes)
    (callback : Bool) (trace_id : Option String) (timeout : Nat) (w : World) :
    Except PyErr (Bytes × String) × Trace :=
  let cb0 : List CallbackCall :=
    if callback then [⟨15/100, "Converting HTML document to PDF..."⟩] else []
  let url := get_gotenberg_url w.gotenbergConfig ++ "/forms/chromium/convert/html"
  let afterOpen := fun (partContent : Bytes) (opens : Nat) (handleOpen : Bool) =>
    let headers :=
      if strTruthy trace_id then [("Gotenberg-Trace", trace_id.getD "")] else []
    let req : RequestInfo := ⟨url, "index.html", partContent, headers, timeout⟩
    match w.http with
    | .requestException em =>
        let closes := if handleOpen then 1 else 0
        let error_msg := "Failed to convert HTML document to PDF (network error): " ++ em
        let cbs := cb0 ++ (if callback then [⟨-1, error_msg⟩] else [])
        (.error ⟨"Exception", error_msg⟩, ⟨cbs, some req, opens, closes⟩)
    | .resp response =>
        let closes := if handleOpen then 1 else 0
        if response.status_code == 200 then
          let pdf_binary := response.content
          let pdf_filename := splitextRoot filename ++ ".pdf"
          let cbs := cb0 ++
            (if callback then [⟨2/10, "HTML document converted to PDF successfully"⟩] else [])
          (.ok (pdf_binary, pdf_filename), ⟨cbs, some req, opens, closes⟩)
        else
          let branch_msg :=
            if response.status_code == 400 then
              "Gotenberg conversion failed: Bad Request - " ++ response.text
            else if response.status_code == 503 then
              "Gotenberg conversion failed: Service Unavailable - " ++ response.text
            else
              "Gotenberg conversion failed with status " ++
                toString response.status_code ++ ": " ++ response.text
          let error_msg := "Failed to convert HTML document to PDF: " ++ branch_msg
          let cbs := cb0 ++ (if callback then [⟨-1, error_msg⟩] else [])
          (.error ⟨"Exception", error_msg⟩, ⟨cbs, some req, opens, closes⟩)
  if bytesTruthy binary then
    afterOpen (binary.getD []) 0 false
  else
    match w.fileOpen with
    | .error e =>
        let error_msg := "Failed to convert HTML document to PDF: " ++ e
        let cbs := cb0 ++ (if callback then [⟨-1, error_msg⟩] else [])
        (.error ⟨"Exception", error_msg⟩, ⟨cbs, none, 0, 0⟩)
    | .ok content => afterOpen content 1 true

/-- Does `hay` start with `needle`? -/
def segStartsAt : List Char → List Char → Bool
  | [], _ => true
  | _ :: _, [] => false
  | a :: asx, b :: bs => a == b && segStartsAt asx bs

/-- Does `needle` occur contiguously inside `hay`? -/
def containsSeg (needle : List Char) : List Char → Bool
  | [] => needle.isEmpty
  | c :: cs => segStartsAt needle (c :: cs) || containsSeg needle cs

/-- The string `needle` occurs contiguously inside the string `hay`. -/
def ContainsSub (hay needle : String) : Prop :=
  ∃ u v : List Char, hay.data = u ++ (needle.data ++ v)

/-- The error message built by the non-200 status branches of both
converters (the `elif` chain on the status code). -/
def statusBranch (r : Response) : String :=
  if r.status_code == 400 then
    "Gotenberg conversion failed: Bad Request - " ++ r.text
  else if r.status_code == 503 then
    "Gotenberg conversion failed: Service Unavailable - " ++ r.text
  else
    "Gotenberg conversion failed with status " ++
      toString r.status_code ++ ": " ++ r.text

/-- The class of the exception carried by a failed result, if any. -/
def errCls : Except PyErr (Bytes × String) → Option String
  | .error e => some e.cls
  | .ok _ => none

/-! Sample worlds used by witnesses and counterexamples. -/

/-- A response with status 200 and a small PDF body. -/
def resp200 : Response := ⟨200, [37, 80, 68, 70], "%PDF"⟩

/-- A world where the configuration has a URL, the file opens, and the
request succeeds with status 200. -/
def world200 : World := ⟨some [("url", "http://gb:3000")], .ok [104, 105], .resp resp200⟩

/-- A world where the request comes back with status 400 and body text "boom". -/
def world400 : World := ⟨none, .ok [104], .resp ⟨400, [], "boom"⟩⟩

/-- A world where the request comes back with status 418 and body text "teapot". -/
def world418 : World := ⟨none, .ok [104], .resp ⟨418, [], "teapot"⟩⟩

/-- A world where the request raises a transport-level exception. -/
def worldNet : World := ⟨none, .ok [104], .requestException "timeout"⟩

theorem segStartsAt_append (t v : List Char) : segStartsAt t (t ++ v) = true := by
  induction t with
  | nil => rfl
  | cons a asx ih => simp [segStartsAt, ih]

theorem containsSeg_here (t v : List Char) : containsSeg t (t ++ v) = true := by
  cases t with
  | nil =>
    cases v with
    | nil => rfl
    | cons c cs => simp [containsSeg, segStartsAt]
  | cons a asx =>
    simp only [containsSeg, List.cons_append, Bool.or_eq_true]
    exact Or.inl (segStartsAt_append (a :: asx) v)

theorem containsSeg_extend (t u rest : List Char) (h : containsSeg t rest = true) :
    containsSeg t (u ++ rest) = true := by
  induction u with
  | nil => exact h
  | cons c cs ih => simp [containsSeg, ih]

theorem containsSeg_of_containsSub (hay needle : String) (h : ContainsSub hay needle) :
    containsSeg needle.data hay.data = true := by
  obtain ⟨u, v, hd⟩ := h
  rw [hd]
  exact containsSeg_extend _ u _ (containsSeg_here _ v)

theorem data_append (s t : String) : (s ++ t).data = s.data ++ t.data := rfl

theorem append_ne_of_take_ne (p q s t : String) (n : Nat)
    (hp : n ≤ p.data.length) (hq : n ≤ q.data.length)
    (hne : p.data.take n ≠ q.data.take n) : p ++ s ≠ q ++ t := by
  intro h
  apply hne
  have hd : p.data ++ s.data = q.data ++ t.data := by
    rw [← data_append, ← data_append, h]
  calc p.data.take n = (p.data ++ s.data).take n :=
        (List.take_append_of_le_length hp).symm
    _ = (q.data ++ t.data).take n := by rw [hd]
    _ = q.data.take n := List.take_append_of_le_length hq

/-- C1: for both `convert_office_to_pdf` and `convert_html_to_pdf`, for
every response with HTTP status 200, the function returns a pair whose
first component equals the HTTP response body exactly and whose second
component equals the input filename with its extension replaced by
".pdf" (the `os.path.splitext` root of the filename followed by
".pdf").  The request is reached exactly when the in-memory bytes are
truthy or the file opens successfully. -/
theorem C1_success_returns_body_and_pdf_name
    (filename : String) (binary : Option Bytes) (callback : Bool)
    (trace_id : Option String) (timeout : Nat) (w : World) (r : Response)
    (hhttp : w.http = .resp r) (h200 : r.status_code = 200)
    (hready : bytesTruthy binary = true ∨ ∃ c, w.fileOpen = Except.ok c) :
    (convert_office_to_pdf filename binary callback trace_id timeout w).1 =
      Except.ok (r.content, splitextRoot filename ++ ".pdf") ∧
    (convert_html_to_pdf filename binary callback trace_id timeout w).1 =
      Except.ok (r.content, splitextRoot filename ++ ".pdf") := by
  constructor <;>
  · cases hbt : bytesTruthy binary
    · rcases hready with h | ⟨c, hc⟩
      · rw [hbt] at h; exact absurd h (by simp)
      · simp [convert_office_to_pdf, convert_html_to_pdf, hbt, hc, hhttp, h200]
    · simp [convert_office_to_pdf, convert_html_to_pdf, hbt, hhttp, h200]

/-- C1 witness: a concrete successful run of both converters. -/
theorem C1_success_returns_body_and_pdf_name_witness :
    (convert_office_to_pdf "a.docx" (some [1, 2]) true (some "tid") 120 world200).1 =
      Except.ok ([37, 80, 68, 70], splitextRoot "a.docx" ++ ".pdf") ∧
    (convert_html_to_pdf "a.docx" (some [1, 2]) true (some "tid") 120 world200).1 =
      Except.ok ([37, 80, 68, 70], splitextRoot "a.docx" ++ ".pdf") :=
  C1_success_returns_body_and_pdf_name "a.docx" (some [1, 2]) true (some "tid") 120
    world200 resp200 rfl rfl (Or.inl rfl)

/-- Shape of the request issued by `convert_office_to_pdf`, whenever one
is issued: its URL, part name, headers and timeout, and where the part
content comes from. -/
theorem office_request_shape
    (filename : String) (binary : Option Bytes) (callback : Bool)
    (trace_id : Option String) (timeout : Nat) (w : World) (req : RequestInfo)
    (h : (convert_office_to_pdf filename binary callback trace_id timeout w).2.request = some req) :
    req.url = get_gotenberg_url w.gotenbergConfig ++ "/forms/libreoffice/convert" ∧
    req.partName = basename filename ∧
    req.headers = (if strTruthy trace_id then [("Gotenberg-Trace", trace_id.getD "")] else []) ∧
    req.timeout = timeout ∧
    (bytesTruthy binary = true → req.partContent = binary.getD []) ∧
    (bytesTruthy binary = false → w.fileOpen = Except.ok req.partContent) := by
  cases hbt : bytesTruthy binary <;> rcases hfo : w.fileOpen with e | c <;>
    rcases hw : w.http with em | r <;>
    simp [convert_office_to_pdf, hbt, hfo, hw] at h ⊢
  all_goals try (split at h <;> simp only [Option.some.injEq] at h)
  all_goals rw [← h]
  all_goals simp [hfo]

/-- Shape of the request issued by `convert_html_to_pdf`, whenever one
is issued. -/
theorem html_request_shape
    (filename : String) (binary : Option Bytes) (callback : Bool)
    (trace_id : Option String) (timeout : Nat) (w : World) (req : RequestInfo)
    (h : (convert_html_to_pdf filename binary callback trace_id timeout w).2.request = some req) :
    req.url = get_gotenberg_url w.gotenbergConfig ++ "/forms/chromium/convert/html" ∧
    req.partName = "index.html" ∧
    req.headers = (if strTruthy trace_id then [("Gotenberg-Trace", trace_id.getD "")] else []) ∧
    req.timeout = timeout ∧
    (bytesTruthy binary = true → req.partContent = binary.getD []) ∧
    (bytesTruthy binary = false → w.fileOpen = Except.ok req.partContent) := by
  cases hbt : bytesTruthy binary <;> rcases hfo : w.fileOpen with e | c <;>
    rcases hw : w.http with em | r <;>
    simp [convert_html_to_pdf, hbt, hfo, hw] at h ⊢
  all_goals try (split at h <;> simp only [Option.some.injEq] at h)
  all_goals rw [← h]
  all_goals simp [hfo]

/-- C2 counterexample: the claim says that whenever `binary` is
supplied (is not `None`) no disk file is opened; but the source tests
Python truthiness (`if binary:`), so supplying the empty byte string
`b""` still opens the file on disk: both converters record one file
open in that situation. -/
theorem C2_counterexample_empty_binary_opens_file :
    (some ([] : Bytes) ≠ (none : Option Bytes)) ∧
    (convert_office_to_pdf "a.docx" (some []) true none 120 world200).2.opens = 1 ∧
    (convert_html_to_pdf "a.docx" (some []) true none 120 world200).2.opens = 1 := by
  refine ⟨by simp, by rfl, by rfl⟩

/-- C2 amended: whenever `binary` is supplied and truthy (non-`None`
and non-empty), no disk file is opened, and the multipart payload of
any issued request is built from the in-memory bytes. -/
theorem C2_amended_truthy_binary_skips_file
    (filename : String) (b : Bytes) (callback : Bool)
    (trace_id : Option String) (timeout : Nat) (w : World)
    (hb : bytesTruthy (some b) = true) :
    ((convert_office_to_pdf filename (some b) callback trace_id timeout w).2.opens = 0 ∧
     ∀ req, (convert_office_to_pdf filename (some b) callback trace_id timeout w).2.request =
       some req → req.partContent = b) ∧
    ((convert_html_to_pdf filename (some b) callback trace_id timeout w).2.opens = 0 ∧
     ∀ req, (convert_html_to_pdf filename (some b) callback trace_id timeout w).2.request =
       some req → req.partContent = b) := by
  refine ⟨⟨?_, ?_⟩, ⟨?_, ?_⟩⟩
  · rcases hw : w.http with em | r <;>
      simp [convert_office_to_pdf, hb, hw]
    split <;> rfl
  · intro req h
    have := (office_request_shape filename (some b) callback trace_id timeout w req h).2.2.2.2.1 hb
    simpa using this
  · rcases hw : w.http with em | r <;>
      simp [convert_html_to_pdf, hb, hw]
    split <;> rfl
  · intro req h
    have := (html_request_shape filename (some b) callback trace_id timeout w req h).2.2.2.2.1 hb
    simpa using this

/-- C2 amended witness: a concrete run with non-empty in-memory bytes
opens no file and uploads those bytes. -/
theorem C2_amended_truthy_binary_skips_file_witness :
    ((convert_office_to_pdf "a.docx" (some [7]) true none 120 world200).2.opens = 0 ∧
     ∀ req, (convert_office_to_pdf "a.docx" (some [7]) true none 120 world200).2.request =
       some req → req.partContent = [7]) ∧
    ((convert_html_to_pdf "a.docx" (some [7]) true none 120 world200).2.opens = 0 ∧
     ∀ req, (convert_html_to_pdf "a.docx" (some [7]) true none 120 world200).2.request =
       some req → req.partContent = [7]) :=
  C2_amended_truthy_binary_skips_file "a.docx" [7] true none 120 world200 rfl

/-- C3: on every run of either converter, the number of file-handle
close operations equals the number of opens: the handle, when opened
(binary omitted or falsy), is closed on every exit path, whether the
run succeeds with status 200, fails on a non-200 status, fails on a
transport exception, or fails when opening the file. -/
theorem C3_file_handle_closed_on_every_path
    (filename : String) (binary : Option Bytes) (callback : Bool)
    (trace_id : Option String) (timeout : Nat) (w : World) :
    (convert_office_to_pdf filename binary callback trace_id timeout w).2.closes =
      (convert_office_to_pdf filename binary callback trace_id timeout w).2.opens ∧
    (convert_html_to_pdf filename binary callback trace_id timeout w).2.closes =
      (convert_html_to_pdf filename binary callback trace_id timeout w).2.opens := by
  constructor <;>
  · cases hbt : bytesTruthy binary <;> rcases hfo : w.fileOpen with e | c <;>
      rcases hw : w.http with em | r <;>
      simp [convert_office_to_pdf, convert_html_to_pdf, hbt, hfo, hw] <;>
      split <;> rfl

theorem containsSub_right (p s : String) : ContainsSub (p ++ s) s :=
  ⟨p.data, [], by simp [data_append]⟩

theorem containsSub_append_left (p : String) {hay s : String} (h : ContainsSub hay s) :
    ContainsSub (p ++ hay) s := by
  obtain ⟨u, v, hd⟩ := h
  exact ⟨p.data ++ u, v, by simp [data_append, hd]⟩

theorem containsSub_append_right (t : String) {hay s : String} (h : ContainsSub hay s) :
    ContainsSub (hay ++ t) s := by
  obtain ⟨u, v, hd⟩ := h
  exact ⟨u, v ++ t.data, by simp [data_append, hd]⟩

theorem statusBranch_contains_text (r : Response) :
    ContainsSub (statusBranch r) r.text := by
  unfold statusBranch
  split
  · exact containsSub_right _ _
  · split
    · exact containsSub_right _ _
    · exact containsSub_right _ _

theorem statusBranch_contains_code (r : Response)
    (h4 : r.status_code ≠ 400) (h5 : r.status_code ≠ 503) :
    ContainsSub (statusBranch r) (toString r.status_code) := by
  unfold statusBranch
  split
  · rename_i h; simp at h; exact absurd h h4
  · split
    · rename_i h; simp at h; exact absurd h h5
    · exact containsSub_append_right _
        (containsSub_append_right _ (containsSub_right _ _))

/-- When the request is reached and the response status is not 200,
`convert_office_to_pdf` fails with the wrapped status-branch message,
reported to the callback with `-1` when a callback was given. -/
theorem office_http_error
    (filename : String) (binary : Option Bytes) (callback : Bool)
    (trace_id : Option String) (timeout : Nat) (w : World) (r : Response)
    (hhttp : w.http = HttpOutcome.resp r) (hs : r.status_code ≠ 200)
    (hready : bytesTruthy binary = true ∨ ∃ c, w.fileOpen = Except.ok c) :
    (convert_office_to_pdf filename binary callback trace_id timeout w).1 =
      Except.error ⟨"Exception",
        "Failed to convert Office document to PDF: " ++ statusBranch r⟩ ∧
    (callback = true →
      (⟨-1, "Failed to convert Office document to PDF: " ++ statusBranch r⟩ : CallbackCall) ∈
        (convert_office_to_pdf filename binary callback trace_id timeout w).2.callbacks) := by
  cases hbt : bytesTruthy binary
  · rcases hready with hx | ⟨c, hc⟩
    · rw [hbt] at hx; exact absurd hx (by simp)
    · simp [convert_office_to_pdf, statusBranch, hbt, hc, hhttp, hs]
      rintro rfl; simp
  · simp [convert_office_to_pdf, statusBranch, hbt, hhttp, hs]
    rintro rfl; simp

/-- When the request is reached and the response status is not 200,
`convert_html_to_pdf` fails with the wrapped status-branch message,
reported to the callback with `-1` when a callback was given. -/
theorem html_http_error
    (filename : String) (binary : Option Bytes) (callback : Bool)
    (trace_id : Option String) (timeout : Nat) (w : World) (r : Response)
    (hhttp : w.http = HttpOutcome.resp r) (hs : r.status_code ≠ 200)
    (hready : bytesTruthy binary = true ∨ ∃ c, w.fileOpen = Except.ok c) :
    (convert_html_to_pdf filename binary callback trace_id timeout w).1 =
      Except.error ⟨"Exception",
        "Failed to convert HTML document to PDF: " ++ statusBranch r⟩ ∧
    (callback = true →
      (⟨-1, "Failed to convert HTML document to PDF: " ++ statusBranch r⟩ : CallbackCall) ∈
        (convert_html_to_pdf filename binary callback trace_id timeout w).2.callbacks) := by
  cases hbt : bytesTruthy binary
  · rcases hready with hx | ⟨c, hc⟩
    · rw [hbt] at hx; exact absurd hx (by simp)
    · simp [convert_html_to_pdf, statusBranch, hbt, hc, hhttp, hs]
      rintro rfl; simp
  · simp [convert_html_to_pdf, statusBranch, hbt, hhttp, hs]
    rintro rfl; simp

/-- When the request raises a transport exception,
`convert_office_to_pdf` fails with the network-error message. -/
theorem office_network_error
    (filename : String) (binary : Option Bytes) (callback : Bool)
    (trace_id : Option String) (timeout : Nat) (w : World) (em : String)
    (hhttp : w.http = HttpOutcome.requestException em)
    (hready : bytesTruthy binary = true ∨ ∃ c, w.fileOpen = Except.ok c) :
    (convert_office_to_pdf filename binary callback trace_id timeout w).1 =
      Except.error ⟨"Exception",
        "Failed to convert Office document to PDF (network error): " ++ em⟩ := by
  cases hbt : bytesTruthy binary
  · rcases hready with hx | ⟨c, hc⟩
    · rw [hbt] at hx; exact absurd hx (by simp)
    · simp [convert_office_to_pdf, hbt, hc, hhttp]
  · simp [convert_office_to_pdf, hbt, hhttp]

/-- When the request raises a transport exception,
`convert_html_to_pdf` fails with the network-error message. -/
theorem html_network_error
    (filename : String) (binary : Option Bytes) (callback : Bool)
    (trace_id : Option String) (timeout : Nat) (w : World) (em : String)
    (hhttp : w.http = HttpOutcome.requestException em)
    (hready : bytesTruthy binary = true ∨ ∃ c, w.fileOpen = Except.ok c) :
    (convert_html_to_pdf filename binary callback trace_id timeout w).1 =
      Except.error ⟨"Exception",
        "Failed to convert HTML document to PDF (network error): " ++ em⟩ := by
  cases hbt : bytesTruthy binary
  · rcases hready with hx | ⟨c, hc⟩
    · rw [hbt] at hx; exact absurd hx (by simp)
    · simp [convert_html_to_pdf, hbt, hc, hhttp]
  · simp [convert_html_to_pdf, hbt, hhttp]

/-- C4: for either converter, when the response has status 400 or 503,
the call fails with a raised exception — whether or not a callback was
given — and, when a callback was given, the callback is invoked with
progress `-1` and a message containing the response body text. -/
theorem C4_status_400_503_fails_and_reports
    (filename : String) (binary : Option Bytes) (callback : Bool)
    (trace_id : Option String) (timeout : Nat) (w : World) (r : Response)
    (hhttp : w.http = HttpOutcome.resp r)
    (hs : r.status_code = 400 ∨ r.status_code = 503)
    (hready : bytesTruthy binary = true ∨ ∃ c, w.fileOpen = Except.ok c) :
    (∃ e, (convert_office_to_pdf filename binary callback trace_id timeout w).1 =
        Except.error e ∧
      ContainsSub e.msg r.text ∧
      (callback = true →
        (⟨-1, e.msg⟩ : CallbackCall) ∈
          (convert_office_to_pdf filename binary callback trace_id timeout w).2.callbacks)) ∧
    (∃ e, (convert_html_to_pdf filename binary callback trace_id timeout w).1 =
        Except.error e ∧
      ContainsSub e.msg r.text ∧
      (callback = true →
        (⟨-1, e.msg⟩ : CallbackCall) ∈
          (convert_html_to_pdf filename binary callback trace_id timeout w).2.callbacks)) := by
  have hs200 : r.status_code ≠ 200 := by rcases hs with h | h <;> omega
  exact ⟨⟨_,
      (office_http_error filename binary callback trace_id timeout w r hhttp hs200 hready).1,
      containsSub_append_left _ (statusBranch_contains_text r),
      (office_http_error filename binary callback trace_id timeout w r hhttp hs200 hready).2⟩,
    ⟨_,
      (html_http_error filename binary callback trace_id timeout w r hhttp hs200 hready).1,
      containsSub_append_left _ (statusBranch_contains_text r),
      (html_http_error filename binary callback trace_id timeout w r hhttp hs200 hready).2⟩⟩

/-- C4 witness: a concrete 400 response makes both converters fail and
report `-1` with the body text in the message. -/
theorem C4_status_400_503_fails_and_reports_witness :
    (∃ e, (convert_office_to_pdf "a.docx" none true none 120 world400).1 =
        Except.error e ∧
      ContainsSub e.msg "boom" ∧
      (true = true →
        (⟨-1, e.msg⟩ : CallbackCall) ∈
          (convert_office_to_pdf "a.docx" none true none 120 world400).2.callbacks)) ∧
    (∃ e, (convert_html_to_pdf "a.docx" none true none 120 world400).1 =
        Except.error e ∧
      ContainsSub e.msg "boom" ∧
      (true = true →
        (⟨-1, e.msg⟩ : CallbackCall) ∈
          (convert_html_to_pdf "a.docx" none true none 120 world400).2.callbacks)) :=
  C4_status_400_503_fails_and_reports "a.docx" none true none 120 world400
    ⟨400, [], "boom"⟩ rfl (Or.inl rfl) (Or.inr ⟨[104], rfl⟩)

/-- C5 counterexample: the claim says a provided trace id always
appears as the "Gotenberg-Trace" header; but the source tests Python
truthiness (`if trace_id:`), so providing the empty string sends no
header at all: the issued request carries an empty header list. -/
theorem C5_counterexample_empty_trace_id_sends_no_header :
    (some "" ≠ (none : Option String)) ∧
    (convert_office_to_pdf "a.docx" (some [1]) false (some "") 120 world200).2.request =
      some ⟨"http://gb:3000/forms/libreoffice/convert", "a.docx", [1], [], 120⟩ := by
  exact ⟨by simp, rfl⟩

/-- C5 amended: a provided non-empty trace id appears verbatim as the
value of the "Gotenberg-Trace" header of any issued request; when the
trace id is absent or empty, the issued request carries no header. -/
theorem C5_amended_trace_header
    (filename : String) (binary : Option Bytes) (callback : Bool)
    (trace_id : Option String) (timeout : Nat) (w : World) (req : RequestInfo)
    (hreq : (convert_office_to_pdf filename binary callback trace_id timeout w).2.request =
        some req ∨
      (convert_html_to_pdf filename binary callback trace_id timeout w).2.request =
        some req) :
    (∀ t, trace_id = some t → t ≠ "" → req.headers = [("Gotenberg-Trace", t)]) ∧
    ((trace_id = none ∨ trace_id = some "") → req.headers = []) := by
  have hh : req.headers =
      (if strTruthy trace_id then [("Gotenberg-Trace", trace_id.getD "")] else []) := by
    rcases hreq with h | h
    · exact (office_request_shape filename binary callback trace_id timeout w req h).2.2.1
    · exact (html_request_shape filename binary callback trace_id timeout w req h).2.2.1
  constructor
  · rintro t rfl ht
    have hx : t.isEmpty = false := by
      cases hx : t.isEmpty
      · rfl
      · exact absurd ((String.isEmpty_iff t).mp hx) ht
    simp [hh, strTruthy, hx]
  · rintro (rfl | rfl)
    · have hn : strTruthy none = false := rfl
      simp [hh, hn]
    · have hn : strTruthy (some "") = false := rfl
      simp [hh, hn]

/-- C5 amended witness: a concrete run with a non-empty trace id. -/
theorem C5_amended_trace_header_witness :
    (∀ t, (some "tid" : Option String) = some t → t ≠ "" →
      RequestInfo.headers ⟨"http://gb:3000/forms/libreoffice/convert", "a.docx", [1, 2],
        [("Gotenberg-Trace", "tid")], 120⟩ = [("Gotenberg-Trace", t)]) ∧
    (((some "tid" : Option String) = none ∨ (some "tid" : Option String) = some "") →
      RequestInfo.headers ⟨"http://gb:3000/forms/libreoffice/convert", "a.docx", [1, 2],
        [("Gotenberg-Trace", "tid")], 120⟩ = []) :=
  C5_amended_trace_header "a.docx" (some [1, 2]) true (some "tid") 120 world200
    ⟨"http://gb:3000/forms/libreoffice/convert", "a.docx", [1, 2],
      [("Gotenberg-Trace", "tid")], 120⟩ (Or.inl rfl)

/-- C6: every request issued by `convert_html_to_pdf` uploads its file
part under the fixed name "index.html", whatever the input filename and
whether the content came from the in-memory bytes or from disk. -/
theorem C6_html_part_always_index_html
    (filename : String) (binary : Option Bytes) (callback : Bool)
    (trace_id : Option String) (timeout : Nat) (w : World) (req : RequestInfo)
    (hreq : (convert_html_to_pdf filename binary callback trace_id timeout w).2.request =
      some req) :
    req.partName = "index.html" :=
  (html_request_shape filename binary callback trace_id timeout w req hreq).2.1

/-- C6 witness: a concrete HTML conversion uploads under "index.html". -/
theorem C6_html_part_always_index_html_witness :
    RequestInfo.partName ⟨"http://gb:3000/forms/chromium/convert/html", "index.html",
      [104, 105], [], 120⟩ = "index.html" :=
  C6_html_part_always_index_html "page.htm" none false none 120 world200
    ⟨"http://gb:3000/forms/chromium/convert/html", "index.html", [104, 105], [], 120⟩ rfl

/-- C7 counterexample: the claim says a transport-level failure is a
distinct error kind from a non-200 HTTP failure; but the source raises
the same generic `Exception` class in both cases, as these concrete
runs show: a transport failure and a 400 response produce errors of the
same class for both converters. -/
theorem C7_counterexample_same_exception_kind :
    errCls (convert_office_to_pdf "a.docx" none true none 120 worldNet).1 = some "Exception" ∧
    errCls (convert_office_to_pdf "a.docx" none true none 120 world400).1 = some "Exception" ∧
    errCls (convert_html_to_pdf "a.docx" none true none 120 worldNet).1 = some "Exception" ∧
    errCls (convert_html_to_pdf "a.docx" none true none 120 world400).1 = some "Exception" :=
  ⟨rfl, rfl, rfl, rfl⟩

/-- C7 amended: both failures are raised as the same generic exception
kind, and the caller can distinguish them only by message: a
transport-level failure message and a non-200 HTTP failure message are
never equal (the former carries the "(network error)" marker in its
fixed opening text, the latter does not). -/
theorem C7_amended_messages_distinguish_failures
    (f1 f2 : String) (b1 b2 : Option Bytes) (c1 c2 : Bool)
    (t1 t2 : Option String) (tm1 tm2 : Nat) (w1 w2 : World)
    (em : String) (r : Response)
    (h1 : w1.http = HttpOutcome.requestException em)
    (h2 : w2.http = HttpOutcome.resp r) (hs : r.status_code ≠ 200)
    (hr1 : bytesTruthy b1 = true ∨ ∃ c, w1.fileOpen = Except.ok c)
    (hr2 : bytesTruthy b2 = true ∨ ∃ c, w2.fileOpen = Except.ok c) :
    (∃ e1 e2,
      (convert_office_to_pdf f1 b1 c1 t1 tm1 w1).1 = Except.error e1 ∧
      (convert_office_to_pdf f2 b2 c2 t2 tm2 w2).1 = Except.error e2 ∧
      e1.cls = e2.cls ∧ e1.msg ≠ e2.msg) ∧
    (∃ e1 e2,
      (convert_html_to_pdf f1 b1 c1 t1 tm1 w1).1 = Except.error e1 ∧
      (convert_html_to_pdf f2 b2 c2 t2 tm2 w2).1 = Except.error e2 ∧
      e1.cls = e2.cls ∧ e1.msg ≠ e2.msg) := by
  refine ⟨⟨_, _, office_network_error f1 b1 c1 t1 tm1 w1 em h1 hr1,
      (office_http_error f2 b2 c2 t2 tm2 w2 r h2 hs hr2).1, rfl, ?_⟩,
    ⟨_, _, html_network_error f1 b1 c1 t1 tm1 w1 em h1 hr1,
      (html_http_error f2 b2 c2 t2 tm2 w2 r h2 hs hr2).1, rfl, ?_⟩⟩
  · exact append_ne_of_take_ne _ _ _ _ 41 (by decide) (by decide) (by decide)
  · exact append_ne_of_take_ne _ _ _ _ 39 (by decide) (by decide) (by decide)

/-- C7 amended witness: concrete transport and HTTP failures with
equal class and different messages. -/
theorem C7_amended_messages_distinguish_failures_witness :
    (∃ e1 e2,
      (convert_office_to_pdf "a.docx" none true none 120 worldNet).1 = Except.error e1 ∧
      (convert_office_to_pdf "b.docx" none true none 120 world400).1 = Except.error e2 ∧
      e1.cls = e2.cls ∧ e1.msg ≠ e2.msg) ∧
    (∃ e1 e2,
      (convert_html_to_pdf "a.docx" none true none 120 worldNet).1 = Except.error e1 ∧
      (convert_html_to_pdf "b.docx" none true none 120 world400).1 = Except.error e2 ∧
      e1.cls = e2.cls ∧ e1.msg ≠ e2.msg) :=
  C7_amended_messages_distinguish_failures "a.docx" "b.docx" none none true true
    none none 120 120 worldNet world400 "timeout" ⟨400, [], "boom"⟩
    rfl rfl (by decide) (Or.inr ⟨[104], rfl⟩) (Or.inr ⟨[104], rfl⟩)

/-- C8: the base URL comes from the "gotenberg"/"url" configuration
lookup, defaulting to http://localhost:3000 when the section or key is
absent, and the two converters POST to the libreoffice and chromium
routes under that base URL. -/
theorem C8_config_lookup_and_routes
    (d : List (String × String)) (filename : String) (binary : Option Bytes)
    (callback : Bool) (trace_id : Option String) (timeout : Nat) (w : World)
    (reqO reqH : RequestInfo)
    (hO : (convert_office_to_pdf filename binary callback trace_id timeout w).2.request =
      some reqO)
    (hH : (convert_html_to_pdf filename binary callback trace_id timeout w).2.request =
      some reqH) :
    get_gotenberg_url none = "http://localhost:3000" ∧
    get_gotenberg_url (some d) = dictGet d "url" "http://localhost:3000" ∧
    dictGet [] "url" "http://localhost:3000" = "http://localhost:3000" ∧
    reqO.url = get_gotenberg_url w.gotenbergConfig ++ "/forms/libreoffice/convert" ∧
    reqH.url = get_gotenberg_url w.gotenbergConfig ++ "/forms/chromium/convert/html" :=
  ⟨rfl, rfl, rfl,
    (office_request_shape filename binary callback trace_id timeout w reqO hO).1,
    (html_request_shape filename binary callback trace_id timeout w reqH hH).1⟩

/-- C8 witness: a concrete run of both converters against a configured
base URL. -/
theorem C8_config_lookup_and_routes_witness :
    get_gotenberg_url none = "http://localhost:3000" ∧
    get_gotenberg_url (some [("url", "http://gb:3000")]) =
      dictGet [("url", "http://gb:3000")] "url" "http://localhost:3000" ∧
    dictGet [] "url" "http://localhost:3000" = "http://localhost:3000" ∧
    RequestInfo.url ⟨"http://gb:3000/forms/libreoffice/convert", "a.docx", [1, 2],
        [], 120⟩ =
      get_gotenberg_url world200.gotenbergConfig ++ "/forms/libreoffice/convert" ∧
    RequestInfo.url ⟨"http://gb:3000/forms/chromium/convert/html", "index.html", [1, 2],
        [], 120⟩ =
      get_gotenberg_url world200.gotenbergConfig ++ "/forms/chromium/convert/html" :=
  C8_config_lookup_and_routes [("url", "http://gb:3000")] "a.docx" (some [1, 2])
    false none 120 world200
    ⟨"http://gb:3000/forms/libreoffice/convert", "a.docx", [1, 2], [], 120⟩
    ⟨"http://gb:3000/forms/chromium/convert/html", "index.html", [1, 2], [], 120⟩
    rfl rfl

theorem office_callback_progress
    (filename : String) (binary : Option Bytes) (callback : Bool)
    (trace_id : Option String) (timeout : Nat) (w : World) (c : CallbackCall)
    (h : c ∈ (convert_office_to_pdf filename binary callback trace_id timeout w).2.callbacks) :
    c.progress = 15/100 ∨ c.progress = 2/10 ∨ c.progress = -1 := by
  cases hbt : bytesTruthy binary <;> rcases hfo : w.fileOpen with e | cc <;>
    rcases hw : w.http with em | r <;> cases hcb : callback <;>
    simp [convert_office_to_pdf, hbt, hfo, hw, hcb] at h
  all_goals try (split at h <;> simp at h)
  all_goals rcases h with rfl | rfl
  all_goals simp

theorem html_callback_progress
    (filename : String) (binary : Option Bytes) (callback : Bool)
    (trace_id : Option String) (timeout : Nat) (w : World) (c : CallbackCall)
    (h : c ∈ (convert_html_to_pdf filename binary callback trace_id timeout w).2.callbacks) :
    c.progress = 15/100 ∨ c.progress = 2/10 ∨ c.progress = -1 := by
  cases hbt : bytesTruthy binary <;> rcases hfo : w.fileOpen with e | cc <;>
    rcases hw : w.http with em | r <;> cases hcb : callback <;>
    simp [convert_html_to_pdf, hbt, hfo, hw, hcb] at h
  all_goals try (split at h <;> simp at h)
  all_goals rcases h with rfl | rfl
  all_goals simp

/-- C9: every progress value either converter ever passes to the
callback is 0.15 (start), 0.2 (success) or -1 (failure). -/
theorem C9_progress_values
    (filename : String) (binary : Option Bytes) (callback : Bool)
    (trace_id : Option String) (timeout : Nat) (w : World) (c : CallbackCall)
    (h : c ∈ (convert_office_to_pdf filename binary callback trace_id timeout w).2.callbacks ∨
      c ∈ (convert_html_to_pdf filename binary callback trace_id timeout w).2.callbacks) :
    c.progress = 15/100 ∨ c.progress = 2/10 ∨ c.progress = -1 := by
  rcases h with h | h
  · exact office_callback_progress filename binary callback trace_id timeout w c h
  · exact html_callback_progress filename binary callback trace_id timeout w c h

/-- C9 witness: the start invocation of a concrete run. -/
theorem C9_progress_values_witness :
    CallbackCall.progress ⟨15/100, "Converting Office document to PDF..."⟩ = 15/100 ∨
    CallbackCall.progress ⟨15/100, "Converting Office document to PDF..."⟩ = 2/10 ∨
    CallbackCall.progress ⟨15/100, "Converting Office document to PDF..."⟩ = -1 :=
  C9_progress_values "a.docx" (some [1, 2]) true none 120 world200
    ⟨15/100, "Converting Office document to PDF..."⟩
    (Or.inl (by simp [convert_office_to_pdf, world200, resp200, bytesTruthy]))

/-- C10 counterexample: the claim says the propagated message still
contains the status code; on a 400 response with body "boom" the
propagated message names "Bad Request" but nowhere contains the digits
"400". -/
theorem C10_counterexample_400_message_lacks_code :
    (convert_office_to_pdf "a.docx" none true none 120 world400).1 =
      Except.error ⟨"Exception",
        "Failed to convert Office document to PDF: Gotenberg conversion failed: Bad Request - boom"⟩ ∧
    ¬ ContainsSub
      "Failed to convert Office document to PDF: Gotenberg conversion failed: Bad Request - boom"
      "400" := by
  refine ⟨rfl, fun hsub => ?_⟩
  have hc := containsSeg_of_containsSub _ _ hsub
  exact absurd hc (by decide)

/-- C10 amended: on a non-200 status, the status-branch exception is
re-caught by the generic handler and the propagating exception is the
status-branch message re-wrapped with the fixed opening text, for every
invocation with or without a callback; when a callback was given the
same message is passed to it with -1.  The message still contains the
response text, and it contains the numeric status code when the status
is neither 400 nor 503 (those two branches name the status
"Bad Request" and "Service Unavailable" instead of the number). -/
theorem C10_amended_wrapped_status_error
    (filename : String) (binary : Option Bytes) (callback : Bool)
    (trace_id : Option String) (timeout : Nat) (w : World) (r : Response)
    (hhttp : w.http = HttpOutcome.resp r) (hs : r.status_code ≠ 200)
    (hready : bytesTruthy binary = true ∨ ∃ c, w.fileOpen = Except.ok c) :
    ((convert_office_to_pdf filename binary callback trace_id timeout w).1 =
        Except.error ⟨"Exception",
          "Failed to convert Office document to PDF: " ++ statusBranch r⟩ ∧
      (callback = true →
        (⟨-1, "Failed to convert Office document to PDF: " ++ statusBranch r⟩ : CallbackCall) ∈
          (convert_office_to_pdf filename binary callback trace_id timeout w).2.callbacks) ∧
      ContainsSub ("Failed to convert Office document to PDF: " ++ statusBranch r) r.text ∧
      (r.status_code ≠ 400 → r.status_code ≠ 503 →
        ContainsSub ("Failed to convert Office document to PDF: " ++ statusBranch r)
          (toString r.status_code))) ∧
    ((convert_html_to_pdf filename binary callback trace_id timeout w).1 =
        Except.error ⟨"Exception",
          "Failed to convert HTML document to PDF: " ++ statusBranch r⟩ ∧
      (callback = true →
        (⟨-1, "Failed to convert HTML document to PDF: " ++ statusBranch r⟩ : CallbackCall) ∈
          (convert_html_to_pdf filename binary callback trace_id timeout w).2.callbacks) ∧
      ContainsSub ("Failed to convert HTML document to PDF: " ++ statusBranch r) r.text ∧
      (r.status_code ≠ 400 → r.status_code ≠ 503 →
        ContainsSub ("Failed to convert HTML document to PDF: " ++ statusBranch r)
          (toString r.status_code))) :=
  ⟨⟨(office_http_error filename binary callback trace_id timeout w r hhttp hs hready).1,
    (office_http_error filename binary callback trace_id timeout w r hhttp hs hready).2,
    containsSub_append_left _ (statusBranch_contains_text r),
    fun h4 h5 => containsSub_append_left _ (statusBranch_contains_code r h4 h5)⟩,
   ⟨(html_http_error filename binary callback trace_id timeout w r hhttp hs hready).1,
    (html_http_error filename binary callback trace_id timeout w r hhttp hs hready).2,
    containsSub_append_left _ (statusBranch_contains_text r),
    fun h4 h5 => containsSub_append_left _ (statusBranch_contains_code r h4 h5)⟩⟩

/-- C10 amended witness: a concrete 418 response, whose wrapped message
contains both the body text and the digits 418. -/
theorem C10_amended_wrapped_status_error_witness :
    ((convert_office_to_pdf "a.docx" none true none 120 world418).1 =
        Except.error ⟨"Exception",
          "Failed to convert Office document to PDF: " ++ statusBranch ⟨418, [], "teapot"⟩⟩ ∧
      (true = true →
        (⟨-1, "Failed to convert Office document to PDF: " ++ statusBranch ⟨418, [], "teapot"⟩⟩ :
            CallbackCall) ∈
          (convert_office_to_pdf "a.docx" none true none 120 world418).2.callbacks) ∧
      ContainsSub ("Failed to convert Office document to PDF: " ++ statusBranch ⟨418, [], "teapot"⟩)
        "teapot" ∧
      ((418 : Nat) ≠ 400 → (418 : Nat) ≠ 503 →
        ContainsSub
          ("Failed to convert Office document to PDF: " ++ statusBranch ⟨418, [], "teapot"⟩)
          (toString (418 : Nat)))) ∧
    ((convert_html_to_pdf "a.docx" none true none 120 world418).1 =
        Except.error ⟨"Exception",
          "Failed to convert HTML document to PDF: " ++ statusBranch ⟨418, [], "teapot"⟩⟩ ∧
      (true = true →
        (⟨-1, "Failed to convert HTML document to PDF: " ++ statusBranch ⟨418, [], "teapot"⟩⟩ :
            CallbackCall) ∈
          (convert_html_to_pdf "a.docx" none true none 120 world418).2.callbacks) ∧
      ContainsSub ("Failed to convert HTML document to PDF: " ++ statusBranch ⟨418, [], "teapot"⟩)
        "teapot" ∧
      ((418 : Nat) ≠ 400 → (418 : Nat) ≠ 503 →
        ContainsSub
          ("Failed to convert HTML document to PDF: " ++ statusBranch ⟨418, [], "teapot"⟩)
          (toString (418 : Nat)))) :=
  C10_amended_wrapped_status_error "a.docx" none true none 120 world418
    ⟨418, [], "teapot"⟩ rfl (by decide) (Or.inr ⟨[104], rfl⟩)

end PowerRag
